import Mathlib

/-!
Shallow embedding of the tbd-notify OpenSea notification bot (src/index.js).

The program keeps a set of module-level maps (user subscriptions, per-user
event filters, per-collection join refs, the active-collection set), a
WebSocket connection flag, a global ref counter and a reconnection-attempt
counter.  The definitions below translate the relevant handlers of
src/index.js into pure state-passing functions over that state; outbound
wire frames are collected into lists.  JS `Map`s are modelled as
association lists (first matching key wins, as keys are unique under the
`Map` discipline) and JS `Set`s as insertion-ordered duplicate-free lists.
-/

namespace TbdNotify

/-- Lookup in an association list, mirroring JS `Map.prototype.get`. -/
def mapGet {α : Type} : List (String × α) → String → Option α
  | [], _ => none
  | (k', v) :: rest, k => if k' = k then some v else mapGet rest k

/-- Insert or overwrite, mirroring JS `Map.prototype.set`. -/
def mapSet {α : Type} : List (String × α) → String → α → List (String × α)
  | [], k, v => [(k, v)]
  | (k', v') :: rest, k, v =>
      if k' = k then (k, v) :: rest else (k', v') :: mapSet rest k v

/-- Remove a key, mirroring JS `Map.prototype.delete`. -/
def mapDel {α : Type} : List (String × α) → String → List (String × α)
  | [], _ => []
  | (k', v') :: rest, k =>
      if k' = k then mapDel rest k else (k', v') :: mapDel rest k

/-- Mirroring JS `Set.prototype.add` (insertion order preserved, no duplicates). -/
def setAdd (s : List String) (x : String) : List String :=
  if x ∈ s then s else s ++ [x]

/-- Mirroring JS `Set.prototype.delete`. -/
def setDel (s : List String) (x : String) : List String :=
  s.filter (fun y => y != x)

/-- The seven recognized OpenSea event kinds (`VALID_EVENTS`, src/index.js:36). -/
def VALID_EVENTS : List String :=
  ["item_listed", "item_sold", "item_transferred", "item_received_offer",
   "item_received_bid", "item_metadata_updated", "item_cancelled"]

/-- One character of the slug grammar `[a-z0-9-]`. -/
def isSlugChar (c : Char) : Bool :=
  (decide ('a' ≤ c) && decide (c ≤ 'z')) ||
  (decide ('0' ≤ c) && decide (c ≤ '9')) || c == '-'

/-- Mirrors `isValidCollectionSlug` (src/index.js:713): nonempty and
matching the regular expression of lowercase letters, digits and hyphens. -/
def isValidCollectionSlug (slug : String) : Bool :=
  decide (slug.length > 0) && slug.toList.all isSlugChar

/-- An outbound Phoenix-protocol frame `{topic, event, payload, ref}`
(payloads are always empty objects for control frames, so omitted). -/
structure Frame where
  topic : String
  event : String
  ref : Nat
deriving DecidableEq, Repr

/-- A `phx_join` frame for a collection topic (src/index.js:434, 832). -/
def joinFrame (slug : String) (ref : Nat) : Frame :=
  { topic := "collection:" ++ slug, event := "phx_join", ref := ref }

/-- A `phx_leave` frame for a collection topic (src/index.js:950). -/
def leaveFrame (slug : String) (ref : Nat) : Frame :=
  { topic := "collection:" ++ slug, event := "phx_leave", ref := ref }

/-- The heartbeat frame sent on the control topic; the code always sends
it with `ref: 0` (src/index.js:242 and 258). -/
def heartbeatFrame : Frame :=
  { topic := "phoenix", event := "heartbeat", ref := 0 }

/-- The frames produced by `ticks` firings of the heartbeat interval
callback (src/index.js:255-269): the identical constant frame each time. -/
def periodicHeartbeatFrames (ticks : Nat) : List Frame :=
  List.replicate ticks heartbeatFrame

/-- The persisted document layout of `subscriptions.json`
(`saveSubscriptions`, src/index.js:134): two keyed maps. -/
structure SavedData where
  subscriptions : List (String × List String)
  eventFilters : List (String × List String)
deriving DecidableEq, Repr

/-- The module-level mutable state of src/index.js (lines 16-31). -/
structure BotState where
  userSubscriptions : List (String × List String)
  pendingSubscriptions : List (String × String)
  subscriptionRefs : List (String × Nat)
  activeCollections : List String
  eventFilters : List (String × List String)
  isWsConnected : Bool
  currentRef : Nat
  connectionAttempts : Nat
  persisted : Option SavedData
deriving DecidableEq, Repr

/-- The sequential join loop of `resubscribeToCollections`
(src/index.js:423-453): walks the collection list, assigns `++currentRef`
to each, records it in `subscriptionRefs` and emits the join frame.
Returns (frames, (final refs map, final counter)). -/
def resubLoop (r : Nat) (refs : List (String × Nat)) :
    List String → List Frame × (List (String × Nat) × Nat)
  | [] => ([], (refs, r))
  | slug :: rest =>
      let t := resubLoop (r + 1) (mapSet refs slug (r + 1)) rest
      (joinFrame slug (r + 1) :: t.1, t.2)

/-- Mirrors `resubscribeToCollections` (src/index.js:409): bails out when
not connected; otherwise clears `subscriptionRefs` and joins every active
collection in insertion order, each with a fresh `++currentRef` ref (the
joins are spaced by the 500ms `setTimeout(subscribeNext, 500)` chain). -/
def resubscribeToCollections (s : BotState) : List Frame × BotState :=
  if s.isWsConnected then
    let t := resubLoop s.currentRef [] s.activeCollections
    (t.1, { s with subscriptionRefs := t.2.1, currentRef := t.2.2 })
  else ([], s)

/-- The document written by `saveSubscriptions` (src/index.js:136-155):
only nonempty subscription lists and nonempty filter sets are persisted. -/
def saveData (s : BotState) : SavedData :=
  { subscriptions := s.userSubscriptions.filter (fun p => !p.2.isEmpty)
  , eventFilters := s.eventFilters.filter (fun p => !p.2.isEmpty) }

/-- The `subscriptions.forEach(slug => activeCollections.add(slug))` pass
inside `saveSubscriptions` (src/index.js:146): every subscribed slug is
(re-)added to the active set; nothing is ever removed here. -/
def addAllSubsToActive (s : BotState) : List String :=
  s.userSubscriptions.foldl (fun acc p => p.2.foldl setAdd acc) s.activeCollections

/-- The state after the mutating body of `saveSubscriptions`
(src/index.js:136-158): active set extended with every subscribed slug,
document written to the file. -/
def saveState (s : BotState) : BotState :=
  { s with activeCollections := addAllSubsToActive s, persisted := some (saveData s) }

/-- Mirrors `saveSubscriptions` (src/index.js:134): re-adds every
subscribed slug to the active set, writes the file, and — if the socket is
open — immediately runs `resubscribeToCollections` (src/index.js:165-167). -/
def saveSubscriptions (s : BotState) : List Frame × BotState :=
  if s.isWsConnected then resubscribeToCollections (saveState s)
  else ([], saveState s)

/-- The subscription entries surviving the load pass (src/index.js:83-98):
only valid slugs are kept and users left with none are dropped. -/
def loadUserSubs (data : SavedData) : List (String × List String) :=
  (data.subscriptions.map
    (fun p => (p.1, p.2.filter isValidCollectionSlug))).filter
    (fun p => !p.2.isEmpty)

/-- The filter entries surviving the load pass (src/index.js:101-111). -/
def loadFilters (data : SavedData) : List (String × List String) :=
  (data.eventFilters.map
    (fun p => (p.1, p.2.filter (fun e => e ∈ VALID_EVENTS)))).filter
    (fun p => !p.2.isEmpty)

/-- The in-memory state rebuilt by `loadSubscriptions` from the file. -/
def loadState (data : SavedData) (s : BotState) : BotState :=
  { s with userSubscriptions := loadUserSubs data,
           eventFilters := loadFilters data,
           activeCollections :=
             (loadUserSubs data).foldl (fun acc p => p.2.foldl setAdd acc) [],
           subscriptionRefs := [] }

/-- Mirrors `loadSubscriptions` (src/index.js:68): when the file exists,
clears the in-memory maps, reloads subscriptions and filters, rebuilds
the active set, and — if the socket is open — immediately runs
`resubscribeToCollections` (src/index.js:118-120).  Without a file
nothing changes. -/
def loadSubscriptions (s : BotState) : List Frame × BotState :=
  match s.persisted with
  | none => ([], s)
  | some data =>
      if s.isWsConnected then resubscribeToCollections (loadState data s)
      else ([], loadState data s)

/-- The subscription phase of the `ws.on('open')` handler
(src/index.js:225-277): the connection flag is set, the attempt counter is
reset to zero (line 229), and after the stabilisation delay the handler
calls `loadSubscriptions()` and then `resubscribeToCollections()`
(lines 272-276).  Note that `loadSubscriptions` itself already calls
`resubscribeToCollections` when the socket is open, so this runs the
reconciliation pass twice whenever the subscriptions file exists. -/
def openHandlerSubscriptionPhase (s : BotState) : List Frame × BotState :=
  let s0 : BotState := { s with isWsConnected := true, connectionAttempts := 0 }
  let t1 := loadSubscriptions s0
  let t2 := resubscribeToCollections t1.2
  (t1.1 ++ t2.1, t2.2)

/-- Outcome of the ack rendezvous awaited by the `!subscribe` handler
(src/index.js:840-856): the handler is structured as a promise that the
temporary listener resolves (`reply`) and a 5-second timer rejects
(`timeout`).  In the program the `reply` outcome is unreachable: the
listener is attached to the raw ws `message` event, so it compares
`event.event`/`event.ref` on the undecoded payload, which never matches
`phx_reply` — every connected subscribe ends in `timeout`.  The `reply`
constructor is kept only so the branch structure of the handler can be
written down; theorems about reachable behaviour use `timeout`. -/
inductive AckOutcome
  | reply
  | timeout
deriving DecidableEq, Repr

/-- The distinct replies the subscribe paths can produce
(src/index.js:782-911 and the `add_collection_modal` handler). -/
inductive SubscribeResult
  | invalidSlug
  | invalidEvent
  | capacityExceeded
  | alreadySubscribed
  | success
  | pendingSuccess
  | failedReply
deriving DecidableEq, Repr

/-- The event-argument loop of the `!subscribe` handler
(src/index.js:793-801): each argument must be a recognized kind, else the
handler replies with an error; recognized kinds accumulate into a set. -/
def buildUserEvents : List String → List String → Option (List String)
  | acc, [] => some acc
  | acc, e :: rest =>
      if e ∈ VALID_EVENTS then buildUserEvents (setAdd acc e) rest else none

/-- Event-filter parsing of the `!subscribe` handler (src/index.js:792-806):
with no extra arguments every recognized kind is selected. -/
def parseUserEvents (eventArgs : List String) : Option (List String) :=
  if eventArgs.isEmpty then some VALID_EVENTS else buildUserEvents [] eventArgs

/-- The mutations of the `!subscribe` handler performed before the ack
rendezvous (src/index.js:820-827): filter stored, fresh `++currentRef`
taken and recorded, collection marked active. -/
def subscribeBaseState (s : BotState) (userId slug : String)
    (userEvents : List String) : BotState :=
  { s with eventFilters := mapSet s.eventFilters userId userEvents,
           currentRef := s.currentRef + 1,
           subscriptionRefs := mapSet s.subscriptionRefs slug (s.currentRef + 1),
           activeCollections := setAdd s.activeCollections slug }

/-- The further mutation after a successful ack rendezvous
(src/index.js:859-860): the pair is recorded. -/
def subscribeRecordState (s : BotState) (userId slug : String)
    (userEvents : List String) : BotState :=
  { (subscribeBaseState s userId slug userEvents) with
    userSubscriptions :=
      mapSet s.userSubscriptions userId
        (((mapGet s.userSubscriptions userId).getD []) ++ [slug]) }

/-- The mutation of the disconnected branch (src/index.js:900-904): the
slug is queued in `pendingSubscriptions` and the pair recorded. -/
def subscribePendingState (s : BotState) (userId slug : String)
    (userEvents : List String) : BotState :=
  { (subscribeBaseState s userId slug userEvents) with
    pendingSubscriptions := mapSet s.pendingSubscriptions slug "join",
    userSubscriptions :=
      mapSet s.userSubscriptions userId
        (((mapGet s.userSubscriptions userId).getD []) ++ [slug]) }

/-- Mirrors the `!subscribe` command handler (src/index.js:782-912).
Checks run in source order: slug grammar, event arguments, the 3-cap,
duplicate pair.  Then the filter is stored, a fresh ref is taken and
recorded, the collection is marked active, and:
while connected the join frame is sent and the ack rendezvous awaited —
only after a reply would the pair be recorded and `saveSubscriptions()`
run (which itself resubscribes), but the rendezvous never resolves (see
`AckOutcome`), so the timeout lands in the catch block
(src/index.js:908-911) recording nothing further; while disconnected the
pair goes to `pendingSubscriptions`, is recorded and saved, with no frame. -/
def subscribeCommand (s : BotState) (userId slug : String)
    (eventArgs : List String) (ack : AckOutcome) :
    SubscribeResult × List Frame × BotState :=
  if isValidCollectionSlug slug then
    match parseUserEvents eventArgs with
    | none => (.invalidEvent, [], s)
    | some userEvents =>
        if 3 ≤ ((mapGet s.userSubscriptions userId).getD []).length then
          (.capacityExceeded, [], s)
        else if slug ∈ (mapGet s.userSubscriptions userId).getD [] then
          (.alreadySubscribed, [], s)
        else
          if s.isWsConnected then
            match ack with
            | .reply =>
                let t := saveSubscriptions (subscribeRecordState s userId slug userEvents)
                (.success, joinFrame slug (s.currentRef + 1) :: t.1, t.2)
            | .timeout =>
                (.failedReply, [joinFrame slug (s.currentRef + 1)],
                 subscribeBaseState s userId slug userEvents)
          else
            let t := saveSubscriptions (subscribePendingState s userId slug userEvents)
            (.pendingSuccess, t.1, t.2)
  else (.invalidSlug, [], s)

/-- Mirrors the `add_collection_modal` submit handler (src/index.js:1569-1614):
slug check, cap check, duplicate check, then the pair is recorded and
saved; no filter change, no ref, no direct join frame (only the
resubscription that `saveSubscriptions` triggers while connected). -/
def addCollectionModal (s : BotState) (userId slug : String) :
    SubscribeResult × List Frame × BotState :=
  if isValidCollectionSlug slug then
    if 3 ≤ ((mapGet s.userSubscriptions userId).getD []).length then
      (.capacityExceeded, [], s)
    else if slug ∈ (mapGet s.userSubscriptions userId).getD [] then
      (.alreadySubscribed, [], s)
    else
      let t := saveSubscriptions
        { s with
          userSubscriptions :=
            mapSet s.userSubscriptions userId
              (((mapGet s.userSubscriptions userId).getD []) ++ [slug]) }
      (.success, t.1, t.2)
  else (.invalidSlug, [], s)

/-- The distinct replies of the `!unsubscribe` command handler. -/
inductive UnsubscribeResult
  | invalidSlug
  | notSubscribed
  | success
deriving DecidableEq, Repr

/-- The removal of the pair by the `!unsubscribe` handler
(src/index.js:931-933). -/
def unsubRemoveState (s : BotState) (userId slug : String) : BotState :=
  { s with
    userSubscriptions :=
      mapSet s.userSubscriptions userId
        (((mapGet s.userSubscriptions userId).getD []).filter (fun x => x != slug)) }

/-- The `activeCollections.delete(collectionSlug)` step (src/index.js:946). -/
def deactivateState (s1 : BotState) (slug : String) : BotState :=
  { s1 with activeCollections := setDel s1.activeCollections slug }

/-- The `subscriptionRefs.delete(collectionSlug)` step (src/index.js:956). -/
def dropRefState (s1 : BotState) (slug : String) : BotState :=
  { s1 with subscriptionRefs := mapDel s1.subscriptionRefs slug }

/-- The leave step of the `!unsubscribe` handler (src/index.js:947-958):
only while connected, and only when a stored ref exists and is truthy
(JS `if (ref)`), a leave frame carrying the stored ref is sent and the
ref deleted. -/
def unsubLeavePhase (s1a : BotState) (slug : String) : List Frame × BotState :=
  if s1a.isWsConnected then
    match mapGet s1a.subscriptionRefs slug with
    | some r =>
        if r ≠ 0 then ([leaveFrame slug r], dropRefState s1a slug)
        else ([], s1a)
    | none => ([], s1a)
  else ([], s1a)

/-- The still-subscribed scan and conditional deactivation of the
`!unsubscribe` handler (src/index.js:936-959). -/
def unsubDropPhase (s1 : BotState) (slug : String) : List Frame × BotState :=
  if s1.userSubscriptions.any (fun p => p.2.contains slug) then ([], s1)
  else unsubLeavePhase (deactivateState s1 slug) slug

/-- Mirrors the `!unsubscribe` command handler (src/index.js:914-977):
slug check, membership check, removal of the pair, scan whether any user
still holds the collection; if none does, the collection leaves the
active set and the leave step runs.  Finally `saveSubscriptions()` runs
(resubscribing while connected). -/
def unsubscribeCommand (s : BotState) (userId slug : String) :
    UnsubscribeResult × List Frame × BotState :=
  if isValidCollectionSlug slug then
    if slug ∈ (mapGet s.userSubscriptions userId).getD [] then
      let t1 := unsubDropPhase (unsubRemoveState s userId slug) slug
      let t2 := saveSubscriptions t1.2
      (.success, t1.1 ++ t2.1, t2.2)
    else (.notSubscribed, [], s)
  else (.invalidSlug, [], s)

/-- Mirrors the `clear_confirm` button handler (src/index.js:1234-1242):
deletes the user's subscription entry and filter entry, then runs
`saveSubscriptions()`.  Nothing is removed from `activeCollections` and
no leave frame is sent anywhere on this path. -/
def clearAllCommand (s : BotState) (userId : String) : List Frame × BotState :=
  let s1 : BotState :=
    { s with userSubscriptions := mapDel s.userSubscriptions userId,
             eventFilters := mapDel s.eventFilters userId }
  saveSubscriptions s1

/-- An inbound domain event as seen by `handleOpenSeaEvent`: the event-kind
tag and the collection slug extracted from `payload.payload.collection.slug`
(absent when the payload is malformed). -/
structure InboundEvent where
  event : String
  collectionSlug : Option String
deriving DecidableEq, Repr

/-- The filter fallback of `handleOpenSeaEvent` (src/index.js:389):
`eventFilters.get(userId) || new Set(VALID_EVENTS)`.  The fallback applies
only when the map has no entry: a present-but-empty set is a truthy JS
object and is used as-is. -/
def effectiveFilters (filters : List (String × List String)) (userId : String) :
    List String :=
  match mapGet filters userId with
  | none => VALID_EVENTS
  | some fs => fs

/-- Mirrors `handleOpenSeaEvent` (src/index.js:366-406): drops events
without a collection slug, then notifies every user whose subscription
list contains the slug and whose effective filter contains the event kind.
Returns the user ids handed to the notification sink, in map order. -/
def handleOpenSeaEvent (s : BotState) (ev : InboundEvent) : List String :=
  match ev.collectionSlug with
  | none => []
  | some slug =>
      (s.userSubscriptions.filter
        (fun p => p.2.contains slug &&
          (effectiveFilters s.eventFilters p.1).contains ev.event)).map Prod.fst

/-- Constants of the reconnection policy (src/index.js:26-30). -/
def RECONNECT_DELAY : Nat := 5000

/-- Attempt ceiling `MAX_RECONNECT_ATTEMPTS` (src/index.js:28). -/
def MAX_RECONNECT_ATTEMPTS : Nat := 5

/-- Backoff cap `MAX_BACKOFF` (src/index.js:29). -/
def MAX_BACKOFF : Nat := 30000

/-- Mirrors `reconnect()` (src/index.js:340-363) acting on the attempt
counter: it is incremented; while it stays within the ceiling a
`connectToOpenSea` call is scheduled after
`min(RECONNECT_DELAY * 2^(attempts-1), MAX_BACKOFF)` milliseconds,
otherwise nothing further is scheduled.  Returns the scheduled delay (if
any) and the new counter value. -/
def reconnectStep (connectionAttempts : Nat) : Option Nat × Nat :=
  if connectionAttempts + 1 ≤ MAX_RECONNECT_ATTEMPTS then
    (some (min (RECONNECT_DELAY * 2 ^ (connectionAttempts + 1 - 1)) MAX_BACKOFF),
     connectionAttempts + 1)
  else (none, connectionAttempts + 1)

/-- The delay formula of the nth consecutive reconnection attempt. -/
def backoffDelay (n : Nat) : Nat :=
  min (RECONNECT_DELAY * 2 ^ (n - 1)) MAX_BACKOFF

/-- What an error during a heartbeat send leads to. -/
inductive FailureAction
  | logOnly
  | reconnect
deriving DecidableEq, Repr

/-- The heartbeat schedule armed by the `ws.on('open')` handler
(src/index.js:239-269): one initial send after a 1000ms delay whose catch
block only logs (lines 249-251), then a 30000ms interval whose catch
block calls `reconnect()` (lines 264-267). -/
structure HeartbeatPolicy where
  initialDelayMs : Nat
  intervalMs : Nat
  initialFailureAction : FailureAction
  periodicFailureAction : FailureAction
deriving DecidableEq, Repr

/-- The concrete policy read off src/index.js:239-269. -/
def heartbeatPolicy : HeartbeatPolicy :=
  { initialDelayMs := 1000
  , intervalMs := 30000
  , initialFailureAction := .logOnly
  , periodicFailureAction := .reconnect }

/-- The operations of the process that can emit frames or move the
ref counter, for whole-lifetime statements. -/
inductive Op
  | resub
  | subscribeCmd (userId slug : String) (eventArgs : List String) (ack : AckOutcome)
  | modalAdd (userId slug : String)
  | unsubscribeCmd (userId slug : String)
  | clearAllCmd (userId : String)
  | openEvt
  | closeEvt
deriving DecidableEq, Repr

/-- One step of the process: dispatch an operation against the state. -/
def runOp (s : BotState) (op : Op) : List Frame × BotState :=
  match op with
  | .resub => resubscribeToCollections s
  | .subscribeCmd u c a k => ((subscribeCommand s u c a k).2.1, (subscribeCommand s u c a k).2.2)
  | .modalAdd u c => ((addCollectionModal s u c).2.1, (addCollectionModal s u c).2.2)
  | .unsubscribeCmd u c => ((unsubscribeCommand s u c).2.1, (unsubscribeCommand s u c).2.2)
  | .clearAllCmd u => clearAllCommand s u
  | .openEvt => openHandlerSubscriptionPhase s
  | .closeEvt => ([], { s with isWsConnected := false })

/-- Run a sequence of operations, concatenating the emitted frames. -/
def runOps (s : BotState) : List Op → List Frame × BotState
  | [] => ([], s)
  | op :: rest =>
      let t := runOp s op
      let t2 := runOps t.2 rest
      (t.1 ++ t2.1, t2.2)

/-- The refs carried by the `phx_join` frames of a frame list, in order. -/
def joinRefs (fs : List Frame) : List Nat :=
  (fs.filter (fun f => f.event == "phx_join")).map Frame.ref

/-- One firing of the heartbeat interval callback (src/index.js:255-269):
sends the heartbeat while connected; a send failure there invokes
`reconnect()`.  Returns the frames delivered and whether `reconnect()` ran. -/
def periodicHeartbeatTick (connected sendOk : Bool) : List Frame × Bool :=
  if connected then
    if sendOk then ([heartbeatFrame], false) else ([], true)
  else ([], false)

/-- The one-shot initial heartbeat armed 1000ms after open
(src/index.js:240-252): a send failure there is only logged — the catch
block does not invoke `reconnect()`. -/
def initialHeartbeatSend (sendOk : Bool) : List Frame × Bool :=
  if sendOk then ([heartbeatFrame], false) else ([], false)

/-- A span assertion for the ref counter: starting from counter `r` an
operation finished with counter `r'` and its emitted join refs are
strictly increasing, all strictly above `r` and at most `r'`. -/
def RefSpan (r r' : Nat) (fs : List Frame) : Prop :=
  r ≤ r' ∧ List.Pairwise (· < ·) (joinRefs fs) ∧
    ∀ q ∈ joinRefs fs, r < q ∧ q ≤ r'

/-- The module-level state right after load (src/index.js:16-31). -/
def initialState : BotState :=
  { userSubscriptions := [], pendingSubscriptions := [], subscriptionRefs := [],
    activeCollections := [], eventFilters := [], isWsConnected := false,
    currentRef := 0, connectionAttempts := 0, persisted := none }

/-- Disconnected state whose persisted file records one subscription. -/
def savedOneSubState : BotState :=
  { initialState with
    persisted := some { subscriptions := [("u1", ["azuki"])], eventFilters := [] } }

/-- A freshly connected state with no subscriptions. -/
def connectedEmptyState : BotState :=
  { initialState with isWsConnected := true }

/-- A connected state with a single subscriber holding one joined collection. -/
def connectedOneSubState : BotState :=
  { initialState with
    userSubscriptions := [("u1", ["azuki"])],
    activeCollections := ["azuki"], subscriptionRefs := [("azuki", 1)],
    isWsConnected := true, currentRef := 1 }

/-- The same registry state after the connection dropped. -/
def disconnectedOneSubState : BotState :=
  { connectedOneSubState with isWsConnected := false }

/-- A connected state in which subscriber u1 already holds 3 collections. -/
def cappedState : BotState :=
  { initialState with
    userSubscriptions := [("u1", ["apes", "azuki", "doodles-official"])],
    activeCollections := ["apes", "azuki", "doodles-official"],
    isWsConnected := true }

/-- A state in which subscriber u1 has a present-but-empty filter set. -/
def emptyFilterState : BotState :=
  { initialState with
    userSubscriptions := [("u1", ["azuki"])],
    activeCollections := ["azuki"], eventFilters := [("u1", [])] }

/-! Helper lemmas about the map/set embedding. -/

theorem mapGet_mapDel_self {α : Type} (m : List (String × α)) (k : String) :
    mapGet (mapDel m k) k = none := by
  induction m with
  | nil => rfl
  | cons p rest ih =>
      by_cases h : p.1 = k
      · simpa [mapDel, h] using ih
      · simp [mapDel, mapGet, h, ih]

theorem mapGet_mapSet_ne {α : Type} (m : List (String × α)) {k k' : String} (v : α)
    (h : k ≠ k') : mapGet (mapSet m k v) k' = mapGet m k' := by
  induction m with
  | nil => simp [mapSet, mapGet, h]
  | cons p rest ih =>
      by_cases hp : p.1 = k
      · simp [mapSet, hp, mapGet, h, hp.symm ▸ h]
      · simp [mapSet, hp, mapGet, ih]

theorem mem_setAdd_of_mem {s : List String} {x : String} (y : String) (h : x ∈ s) :
    x ∈ setAdd s y := by
  unfold setAdd
  split
  · exact h
  · exact List.mem_append_left _ h

theorem mem_setAdd_self (s : List String) (x : String) : x ∈ setAdd s x := by
  unfold setAdd
  split
  · assumption
  · exact List.mem_append_right _ (List.mem_singleton.mpr rfl)

theorem not_mem_setAdd {s : List String} {x y : String} (hx : x ∉ s) (hxy : x ≠ y) :
    x ∉ setAdd s y := by
  unfold setAdd
  split
  · exact hx
  · intro h
    rcases List.mem_append.mp h with h | h
    · exact hx h
    · exact hxy (List.mem_singleton.mp h)

theorem not_mem_setDel (s : List String) (x : String) : x ∉ setDel s x := by
  intro h
  have := List.of_mem_filter h
  simp at this

theorem mem_foldl_setAdd_of_mem {x : String} (l : List String) {acc : List String}
    (h : x ∈ acc) : x ∈ l.foldl setAdd acc := by
  induction l generalizing acc with
  | nil => exact h
  | cons a rest ih => exact ih (mem_setAdd_of_mem a h)

theorem not_mem_foldl_setAdd {x : String} {l : List String} {acc : List String}
    (hacc : x ∉ acc) (hl : x ∉ l) : x ∉ l.foldl setAdd acc := by
  induction l generalizing acc with
  | nil => exact hacc
  | cons a rest ih =>
      have hxa : x ≠ a := fun e => hl (e ▸ List.mem_cons_self a rest)
      exact ih (not_mem_setAdd hacc hxa) (fun h => hl (List.mem_cons_of_mem a h))

theorem mem_entriesFold_of_mem {x : String}
    (entries : List (String × List String)) {acc : List String} (h : x ∈ acc) :
    x ∈ entries.foldl (fun acc p => p.2.foldl setAdd acc) acc := by
  induction entries generalizing acc with
  | nil => exact h
  | cons p rest ih => exact ih (mem_foldl_setAdd_of_mem p.2 h)

theorem not_mem_entriesFold {x : String}
    {entries : List (String × List String)} {acc : List String}
    (hacc : x ∉ acc) (hent : ∀ p ∈ entries, x ∉ p.2) :
    x ∉ entries.foldl (fun acc p => p.2.foldl setAdd acc) acc := by
  induction entries generalizing acc with
  | nil => exact hacc
  | cons p rest ih =>
      exact ih (not_mem_foldl_setAdd hacc (hent p (List.mem_cons_self p rest)))
        (fun q hq => hent q (List.mem_cons_of_mem p hq))

/-! Lemmas about frames and the resubscription loop. -/

theorem joinRefs_nil : joinRefs [] = [] := rfl

theorem joinRefs_append (a b : List Frame) :
    joinRefs (a ++ b) = joinRefs a ++ joinRefs b := by
  simp [joinRefs, List.filter_append]

theorem joinRefs_cons_join (slug : String) (r : Nat) (fs : List Frame) :
    joinRefs (joinFrame slug r :: fs) = r :: joinRefs fs := by
  have h : ((joinFrame slug r).event == "phx_join") = true := rfl
  simp [joinRefs, List.filter_cons, h, joinFrame]

theorem joinRefs_cons_leave (slug : String) (r : Nat) (fs : List Frame) :
    joinRefs (leaveFrame slug r :: fs) = joinRefs fs := by
  have h : ((leaveFrame slug r).event == "phx_join") = false := rfl
  simp [joinRefs, List.filter_cons, h]

theorem resubLoop_counter (cols : List String) (r : Nat) (refs : List (String × Nat)) :
    (resubLoop r refs cols).2.2 = r + cols.length := by
  induction cols generalizing r refs with
  | nil => simp [resubLoop]
  | cons c rest ih =>
      simp only [resubLoop, List.length_cons, ih]
      omega

theorem resubLoop_joinRefs (cols : List String) (r : Nat) (refs : List (String × Nat)) :
    joinRefs (resubLoop r refs cols).1 = List.range' (r + 1) cols.length := by
  induction cols generalizing r refs with
  | nil => rfl
  | cons c rest ih =>
      simp only [resubLoop, joinRefs_cons_join, ih, List.length_cons, List.range'_succ]

theorem resubLoop_events (cols : List String) (r : Nat) (refs : List (String × Nat)) :
    ∀ f ∈ (resubLoop r refs cols).1, f.event = "phx_join" := by
  induction cols generalizing r refs with
  | nil => intro f hf; cases hf
  | cons c rest ih =>
      intro f hf
      simp only [resubLoop, List.mem_cons] at hf
      rcases hf with hf | hf
      · rw [hf]; rfl
      · exact ih _ _ f hf

theorem resubLoop_get_of_not_mem {slug : String} {cols : List String}
    (h : slug ∉ cols) (r : Nat) (refs : List (String × Nat)) :
    mapGet (resubLoop r refs cols).2.1 slug = mapGet refs slug := by
  induction cols generalizing r refs with
  | nil => rfl
  | cons c rest ih =>
      have hc : c ≠ slug := fun e => h (e ▸ List.mem_cons_self c rest)
      have hrest : slug ∉ rest := fun e => h (List.mem_cons_of_mem c e)
      simp only [resubLoop]
      rw [ih hrest, mapGet_mapSet_ne _ _ hc]

/-! Span lemmas for the global ref counter. -/

theorem refSpan_no_joins {r r' : Nat} {fs : List Frame} (h : joinRefs fs = [])
    (hle : r ≤ r') : RefSpan r r' fs := by
  refine ⟨hle, ?_, ?_⟩ <;> simp [h]

theorem RefSpan.mono_left {r0 r1 r2 : Nat} {fs : List Frame}
    (h : RefSpan r1 r2 fs) (hle : r0 ≤ r1) : RefSpan r0 r2 fs := by
  obtain ⟨h1, h2, h3⟩ := h
  exact ⟨hle.trans h1, h2, fun q hq => ⟨lt_of_le_of_lt hle (h3 q hq).1, (h3 q hq).2⟩⟩

theorem refSpan_append {r1 r2 r3 : Nat} {fs1 fs2 : List Frame}
    (h1 : RefSpan r1 r2 fs1) (h2 : RefSpan r2 r3 fs2) :
    RefSpan r1 r3 (fs1 ++ fs2) := by
  obtain ⟨le1, p1, b1⟩ := h1
  obtain ⟨le2, p2, b2⟩ := h2
  refine ⟨le1.trans le2, ?_, ?_⟩
  · rw [joinRefs_append, List.pairwise_append]
    exact ⟨p1, p2, fun a ha b hb => lt_of_le_of_lt (b1 a ha).2 (b2 b hb).1⟩
  · intro q hq
    rw [joinRefs_append, List.mem_append] at hq
    rcases hq with h | h
    · exact ⟨(b1 q h).1, le_trans (b1 q h).2 le2⟩
    · exact ⟨lt_of_le_of_lt le1 (b2 q h).1, (b2 q h).2⟩

theorem refSpan_single_join (slug : String) (r : Nat) :
    RefSpan r (r + 1) [joinFrame slug (r + 1)] := by
  refine ⟨Nat.le_succ r, ?_, ?_⟩
  · rw [joinRefs_cons_join]
    exact List.pairwise_singleton _ _
  · intro q hq
    rw [joinRefs_cons_join] at hq
    simp only [joinRefs_nil, List.mem_singleton] at hq
    omega

theorem refSpan_resub (s : BotState) :
    RefSpan s.currentRef (resubscribeToCollections s).2.currentRef
      (resubscribeToCollections s).1 := by
  unfold resubscribeToCollections
  split
  · refine ⟨?_, ?_, ?_⟩
    · show s.currentRef ≤ (resubLoop s.currentRef [] s.activeCollections).2.2
      rw [resubLoop_counter]
      omega
    · show List.Pairwise (· < ·) (joinRefs (resubLoop s.currentRef [] s.activeCollections).1)
      rw [resubLoop_joinRefs]
      exact List.pairwise_lt_range' _ _
    · intro q hq
      rw [resubLoop_joinRefs, List.mem_range'_1] at hq
      show s.currentRef < q ∧ q ≤ (resubLoop s.currentRef [] s.activeCollections).2.2
      rw [resubLoop_counter]
      omega
  · exact refSpan_no_joins rfl le_rfl

/-! Field-preservation lemmas for the composite operations. -/

theorem resub_userSubscriptions (s : BotState) :
    (resubscribeToCollections s).2.userSubscriptions = s.userSubscriptions := by
  unfold resubscribeToCollections
  split <;> rfl

theorem resub_eventFilters (s : BotState) :
    (resubscribeToCollections s).2.eventFilters = s.eventFilters := by
  unfold resubscribeToCollections
  split <;> rfl

theorem resub_activeCollections (s : BotState) :
    (resubscribeToCollections s).2.activeCollections = s.activeCollections := by
  unfold resubscribeToCollections
  split <;> rfl

theorem resub_persisted (s : BotState) :
    (resubscribeToCollections s).2.persisted = s.persisted := by
  unfold resubscribeToCollections
  split <;> rfl

theorem resub_isWsConnected (s : BotState) :
    (resubscribeToCollections s).2.isWsConnected = s.isWsConnected := by
  unfold resubscribeToCollections
  split <;> rfl

theorem resub_connectionAttempts (s : BotState) :
    (resubscribeToCollections s).2.connectionAttempts = s.connectionAttempts := by
  unfold resubscribeToCollections
  split <;> rfl

theorem resub_events (s : BotState) :
    ∀ f ∈ (resubscribeToCollections s).1, f.event = "phx_join" := by
  unfold resubscribeToCollections
  split
  · exact resubLoop_events _ _ _
  · intro f hf; cases hf

theorem resub_refs_of_not_active {s : BotState} {slug : String}
    (h : slug ∉ s.activeCollections) :
    mapGet (resubscribeToCollections s).2.subscriptionRefs slug =
      mapGet s.subscriptionRefs slug ∨
    mapGet (resubscribeToCollections s).2.subscriptionRefs slug = none := by
  unfold resubscribeToCollections
  split
  · right
    show mapGet (resubLoop s.currentRef [] s.activeCollections).2.1 slug = none
    rw [resubLoop_get_of_not_mem h]
    rfl
  · left; rfl

theorem save_userSubscriptions (s : BotState) :
    (saveSubscriptions s).2.userSubscriptions = s.userSubscriptions := by
  unfold saveSubscriptions
  split
  · rw [resub_userSubscriptions]
    rfl
  · rfl

theorem save_eventFilters (s : BotState) :
    (saveSubscriptions s).2.eventFilters = s.eventFilters := by
  unfold saveSubscriptions
  split
  · rw [resub_eventFilters]
    rfl
  · rfl

theorem save_persisted (s : BotState) :
    (saveSubscriptions s).2.persisted = some (saveData s) := by
  unfold saveSubscriptions
  split
  · rw [resub_persisted]
    rfl
  · rfl

theorem save_isWsConnected (s : BotState) :
    (saveSubscriptions s).2.isWsConnected = s.isWsConnected := by
  unfold saveSubscriptions
  split
  · rw [resub_isWsConnected]
    rfl
  · rfl

theorem save_connectionAttempts (s : BotState) :
    (saveSubscriptions s).2.connectionAttempts = s.connectionAttempts := by
  unfold saveSubscriptions
  split
  · rw [resub_connectionAttempts]
    rfl
  · rfl

theorem save_activeCollections (s : BotState) :
    (saveSubscriptions s).2.activeCollections = addAllSubsToActive s := by
  unfold saveSubscriptions
  split
  · rw [resub_activeCollections]
    rfl
  · rfl

theorem mem_save_active {s : BotState} {c : String} (h : c ∈ s.activeCollections) :
    c ∈ (saveSubscriptions s).2.activeCollections := by
  rw [save_activeCollections]
  exact mem_entriesFold_of_mem _ h

theorem save_events (s : BotState) :
    ∀ f ∈ (saveSubscriptions s).1, f.event = "phx_join" := by
  unfold saveSubscriptions
  split
  · exact resub_events _
  · intro f hf; cases hf

theorem refSpan_save (s : BotState) :
    RefSpan s.currentRef (saveSubscriptions s).2.currentRef (saveSubscriptions s).1 := by
  unfold saveSubscriptions
  split
  · exact refSpan_resub (saveState s)
  · exact refSpan_no_joins rfl le_rfl

theorem load_connectionAttempts (s : BotState) :
    (loadSubscriptions s).2.connectionAttempts = s.connectionAttempts := by
  unfold loadSubscriptions
  split
  · rfl
  · split
    · rw [resub_connectionAttempts]
      rfl
    · rfl

theorem refSpan_load (s : BotState) :
    RefSpan s.currentRef (loadSubscriptions s).2.currentRef (loadSubscriptions s).1 := by
  unfold loadSubscriptions
  split
  · exact refSpan_no_joins rfl le_rfl
  · rename_i data heq
    split
    · exact refSpan_resub (loadState data s)
    · exact refSpan_no_joins rfl le_rfl

theorem refSpan_open (s : BotState) :
    RefSpan s.currentRef (openHandlerSubscriptionPhase s).2.currentRef
      (openHandlerSubscriptionPhase s).1 := by
  have h1 := refSpan_load { s with isWsConnected := true, connectionAttempts := 0 }
  have h2 := refSpan_resub
    (loadSubscriptions { s with isWsConnected := true, connectionAttempts := 0 }).2
  exact refSpan_append h1 h2

theorem refSpan_subscribe (s : BotState) (u slug : String)
    (args : List String) (ack : AckOutcome) :
    RefSpan s.currentRef (subscribeCommand s u slug args ack).2.2.currentRef
      (subscribeCommand s u slug args ack).2.1 := by
  unfold subscribeCommand
  split
  · split
    · exact refSpan_no_joins rfl le_rfl
    · rename_i userEvents heq
      split
      · exact refSpan_no_joins rfl le_rfl
      · split
        · exact refSpan_no_joins rfl le_rfl
        · split
          · split
            · have h1 := refSpan_single_join slug s.currentRef
              have h2 := refSpan_save (subscribeRecordState s u slug userEvents)
              exact refSpan_append h1 h2
            · exact refSpan_single_join _ _
          · have h2 := refSpan_save (subscribePendingState s u slug userEvents)
            exact RefSpan.mono_left h2 (Nat.le_succ _)
  · exact refSpan_no_joins rfl le_rfl

theorem refSpan_modal (s : BotState) (u slug : String) :
    RefSpan s.currentRef (addCollectionModal s u slug).2.2.currentRef
      (addCollectionModal s u slug).2.1 := by
  unfold addCollectionModal
  split
  · split
    · exact refSpan_no_joins rfl le_rfl
    · split
      · exact refSpan_no_joins rfl le_rfl
      · exact refSpan_save
          { s with
            userSubscriptions :=
              mapSet s.userSubscriptions u
                (((mapGet s.userSubscriptions u).getD []) ++ [slug]) }
  · exact refSpan_no_joins rfl le_rfl

theorem unsubLeave_no_joins (s1a : BotState) (slug : String) :
    joinRefs (unsubLeavePhase s1a slug).1 = [] := by
  unfold unsubLeavePhase
  split
  · split
    · split
      · exact joinRefs_cons_leave _ _ _
      · rfl
    · rfl
  · rfl

theorem unsubLeave_currentRef (s1a : BotState) (slug : String) :
    (unsubLeavePhase s1a slug).2.currentRef = s1a.currentRef := by
  unfold unsubLeavePhase
  split
  · split
    · split <;> rfl
    · rfl
  · rfl

theorem unsubDrop_no_joins (s1 : BotState) (slug : String) :
    joinRefs (unsubDropPhase s1 slug).1 = [] := by
  unfold unsubDropPhase
  split
  · rfl
  · exact unsubLeave_no_joins _ _

theorem unsubDrop_currentRef (s1 : BotState) (slug : String) :
    (unsubDropPhase s1 slug).2.currentRef = s1.currentRef := by
  unfold unsubDropPhase
  split
  · rfl
  · rw [unsubLeave_currentRef]
    rfl

theorem refSpan_unsubscribe (s : BotState) (u slug : String) :
    RefSpan s.currentRef (unsubscribeCommand s u slug).2.2.currentRef
      (unsubscribeCommand s u slug).2.1 := by
  unfold unsubscribeCommand
  split
  · split
    · have h1 : RefSpan s.currentRef
          (unsubDropPhase (unsubRemoveState s u slug) slug).2.currentRef
          (unsubDropPhase (unsubRemoveState s u slug) slug).1 := by
        refine refSpan_no_joins (unsubDrop_no_joins _ _) ?_
        rw [unsubDrop_currentRef]
        exact le_rfl
      have h2 := refSpan_save (unsubDropPhase (unsubRemoveState s u slug) slug).2
      exact refSpan_append h1 h2
    · exact refSpan_no_joins rfl le_rfl
  · exact refSpan_no_joins rfl le_rfl

theorem refSpan_clearAll (s : BotState) (u : String) :
    RefSpan s.currentRef (clearAllCommand s u).2.currentRef (clearAllCommand s u).1 := by
  exact refSpan_save
    { s with userSubscriptions := mapDel s.userSubscriptions u,
             eventFilters := mapDel s.eventFilters u }

theorem refSpan_runOp (s : BotState) (op : Op) :
    RefSpan s.currentRef (runOp s op).2.currentRef (runOp s op).1 := by
  cases op with
  | resub => exact refSpan_resub s
  | subscribeCmd u c a k => exact refSpan_subscribe s u c a k
  | modalAdd u c => exact refSpan_modal s u c
  | unsubscribeCmd u c => exact refSpan_unsubscribe s u c
  | clearAllCmd u => exact refSpan_clearAll s u
  | openEvt => exact refSpan_open s
  | closeEvt => exact refSpan_no_joins rfl le_rfl

theorem subscribe_connectionAttempts (s : BotState) (u slug : String)
    (args : List String) (ack : AckOutcome) :
    (subscribeCommand s u slug args ack).2.2.connectionAttempts = s.connectionAttempts := by
  unfold subscribeCommand
  split
  · split
    · rfl
    · split
      · rfl
      · split
        · rfl
        · split
          · split
            · simp [save_connectionAttempts, subscribeRecordState, subscribeBaseState]
            · rfl
          · simp [save_connectionAttempts, subscribePendingState, subscribeBaseState]
  · rfl

theorem modal_connectionAttempts (s : BotState) (u slug : String) :
    (addCollectionModal s u slug).2.2.connectionAttempts = s.connectionAttempts := by
  unfold addCollectionModal
  split
  · split
    · rfl
    · split
      · rfl
      · simp [save_connectionAttempts]
  · rfl

theorem unsubLeave_connectionAttempts (s1a : BotState) (slug : String) :
    (unsubLeavePhase s1a slug).2.connectionAttempts = s1a.connectionAttempts := by
  unfold unsubLeavePhase
  split
  · split
    · split <;> rfl
    · rfl
  · rfl

theorem unsubDrop_connectionAttempts (s1 : BotState) (slug : String) :
    (unsubDropPhase s1 slug).2.connectionAttempts = s1.connectionAttempts := by
  unfold unsubDropPhase
  split
  · rfl
  · rw [unsubLeave_connectionAttempts]
    rfl

theorem unsubscribe_connectionAttempts (s : BotState) (u slug : String) :
    (unsubscribeCommand s u slug).2.2.connectionAttempts = s.connectionAttempts := by
  unfold unsubscribeCommand
  split
  · split
    · simp [save_connectionAttempts, unsubDrop_connectionAttempts, unsubRemoveState]
    · rfl
  · rfl

theorem clearAll_connectionAttempts (s : BotState) (u : String) :
    (clearAllCommand s u).2.connectionAttempts = s.connectionAttempts := by
  unfold clearAllCommand
  simp [save_connectionAttempts]

theorem open_connectionAttempts (s : BotState) :
    (openHandlerSubscriptionPhase s).2.connectionAttempts = 0 := by
  unfold openHandlerSubscriptionPhase
  simp [resub_connectionAttempts, load_connectionAttempts]

theorem runOp_connectionAttempts (s : BotState) (op : Op) (h : op ≠ Op.openEvt) :
    (runOp s op).2.connectionAttempts = s.connectionAttempts := by
  cases op with
  | resub => exact resub_connectionAttempts s
  | subscribeCmd u c a k => exact subscribe_connectionAttempts s u c a k
  | modalAdd u c => exact modal_connectionAttempts s u c
  | unsubscribeCmd u c => exact unsubscribe_connectionAttempts s u c
  | clearAllCmd u => exact clearAll_connectionAttempts s u
  | openEvt => exact absurd rfl h
  | closeEvt => rfl

theorem refSpan_runOps (s : BotState) (ops : List Op) :
    RefSpan s.currentRef (runOps s ops).2.currentRef (runOps s ops).1 := by
  induction ops generalizing s with
  | nil => exact refSpan_no_joins rfl le_rfl
  | cons op rest ih =>
      have h1 := refSpan_runOp s op
      have h2 := ih (runOp s op).2
      exact refSpan_append h1 h2

theorem resub_refs_none {s : BotState} {slug : String}
    (hconn : s.isWsConnected = true) (h : slug ∉ s.activeCollections) :
    mapGet (resubscribeToCollections s).2.subscriptionRefs slug = none := by
  unfold resubscribeToCollections
  rw [hconn]
  show mapGet (resubLoop s.currentRef [] s.activeCollections).2.1 slug = none
  rw [resubLoop_get_of_not_mem h]
  rfl

theorem save_refs_none {s : BotState} {slug : String}
    (hconn : s.isWsConnected = true) (h : slug ∉ addAllSubsToActive s) :
    mapGet (saveSubscriptions s).2.subscriptionRefs slug = none := by
  unfold saveSubscriptions
  rw [hconn]
  show mapGet (resubscribeToCollections (saveState s)).2.subscriptionRefs slug = none
  exact resub_refs_none hconn h

/-! Claim theorems. -/

/-- Claim C1 (code-bug evidence): on a (re)connect with the subscriptions
file recording one subscription to azuki, the open handler's subscription
phase emits two join frames for azuki, with refs 1 and 2 — one join from
the resubscription triggered inside `loadSubscriptions` (src/index.js:118)
and a second from the explicit `resubscribeToCollections()` call right
after it (src/index.js:275) — instead of the exactly one join per active
collection that the claim states. -/
theorem C1_double_join :
    (openHandlerSubscriptionPhase savedOneSubState).1 =
      [joinFrame "azuki" 1, joinFrame "azuki" 2] := by
  decide

/-- Claim C2 (counterexample): a subscribe issued while connected whose
ack rendezvous times out is not recorded: the (subscriber, collection)
pair is absent from the desired state afterwards, nothing is persisted,
and the caller receives the generic failure reply — contradicting the
claim that the pair is stored, persisted and reported as recorded but
unconfirmed. -/
theorem C2_counterexample :
    (subscribeCommand connectedEmptyState "u1" "azuki" [] AckOutcome.timeout).1 =
      SubscribeResult.failedReply
    ∧ (subscribeCommand connectedEmptyState "u1" "azuki" []
        AckOutcome.timeout).2.2.userSubscriptions = []
    ∧ (subscribeCommand connectedEmptyState "u1" "azuki" []
        AckOutcome.timeout).2.2.persisted = none := by
  decide

/-- Claim C2 (amended): when a subscribe issued while connected hits the
5-second ack timeout, the join frame has been sent and the collection is
left behind in the active set and ref map, but the (subscriber,
collection) pair is NOT recorded and nothing is persisted — the recording
and the save are sequenced after the rendezvous — and the caller is told
the subscribe failed. -/
theorem C2_timeout_rolls_back (s : BotState) (u slug : String) (args : List String)
    (hvalid : isValidCollectionSlug slug = true)
    (hargs : (parseUserEvents args).isSome = true)
    (hcap : ((mapGet s.userSubscriptions u).getD []).length < 3)
    (hmem : slug ∉ (mapGet s.userSubscriptions u).getD [])
    (hconn : s.isWsConnected = true) :
    (subscribeCommand s u slug args .timeout).1 = .failedReply
    ∧ (subscribeCommand s u slug args .timeout).2.1 = [joinFrame slug (s.currentRef + 1)]
    ∧ (subscribeCommand s u slug args .timeout).2.2.userSubscriptions = s.userSubscriptions
    ∧ (subscribeCommand s u slug args .timeout).2.2.persisted = s.persisted
    ∧ slug ∈ (subscribeCommand s u slug args .timeout).2.2.activeCollections := by
  obtain ⟨es, hes⟩ := Option.isSome_iff_exists.mp hargs
  have hncap : ¬ 3 ≤ ((mapGet s.userSubscriptions u).getD []).length := by omega
  refine ⟨?_, ?_, ?_, ?_, ?_⟩ <;>
    simp [subscribeCommand, hvalid, hes, hncap, hmem, hconn, subscribeBaseState,
      mem_setAdd_self]

theorem C2_timeout_rolls_back_witness :
    (subscribeCommand connectedEmptyState "u1" "doodles-official" []
        AckOutcome.timeout).1 = SubscribeResult.failedReply
    ∧ (subscribeCommand connectedEmptyState "u1" "doodles-official" []
        AckOutcome.timeout).2.1 =
        [joinFrame "doodles-official" (connectedEmptyState.currentRef + 1)]
    ∧ (subscribeCommand connectedEmptyState "u1" "doodles-official" []
        AckOutcome.timeout).2.2.userSubscriptions = connectedEmptyState.userSubscriptions
    ∧ (subscribeCommand connectedEmptyState "u1" "doodles-official" []
        AckOutcome.timeout).2.2.persisted = connectedEmptyState.persisted
    ∧ "doodles-official" ∈ (subscribeCommand connectedEmptyState "u1" "doodles-official" []
        AckOutcome.timeout).2.2.activeCollections :=
  C2_timeout_rolls_back connectedEmptyState "u1" "doodles-official" []
    (by decide) (by decide) (by decide) (by decide) (by decide)

/-- Claim C3 (counterexample): two consecutive firings of the heartbeat
interval send two control messages on the same connection that both carry
ref 0 — so outbound control refs are neither unique within the
connection's lifetime nor monotonically increasing. -/
theorem C3_counterexample :
    (periodicHeartbeatFrames 2).map Frame.ref = [0, 0]
    ∧ ¬ ((periodicHeartbeatFrames 2).map Frame.ref).Nodup
    ∧ ¬ List.Pairwise (fun a b : Frame => a.ref < b.ref) (periodicHeartbeatFrames 2) := by
  decide

/-- Claim C3 (amended): only join frames carry fresh monotonically
increasing refs (within a reconciliation pass the refs are strictly
increasing); heartbeat frames always carry the constant ref 0; a leave
frame reuses the ref stored for the collection at join time. -/
theorem C3_ref_discipline :
    heartbeatFrame.ref = 0
    ∧ (∀ n : Nat, ∀ f ∈ periodicHeartbeatFrames n, f.ref = 0)
    ∧ (∀ s : BotState, List.Pairwise (· < ·) (joinRefs (resubscribeToCollections s).1))
    ∧ (∀ (s1a : BotState) (slug : String) (r : Nat),
        s1a.isWsConnected = true → mapGet s1a.subscriptionRefs slug = some r → r ≠ 0 →
        (unsubLeavePhase s1a slug).1 = [leaveFrame slug r]) := by
  refine ⟨rfl, ?_, ?_, ?_⟩
  · intro n f hf
    rw [List.eq_of_mem_replicate hf]
    rfl
  · intro s
    exact (refSpan_resub s).2.1
  · intro s1a slug r hconn href hr
    simp [unsubLeavePhase, hconn, href, hr]

theorem C3_ref_discipline_witness :
    (unsubLeavePhase connectedOneSubState "azuki").1 = [leaveFrame "azuki" 1] :=
  C3_ref_discipline.2.2.2 connectedOneSubState "azuki" 1 (by decide) (by decide) (by decide)

/-- Claim C4 (counterexample): clearing the only subscriber of azuki
leaves azuki in the active set and sends no leave frame — the save pass
instead re-joins azuki with a fresh ref, because `saveSubscriptions`
resubscribes to the never-shrunk active set. -/
theorem C4_counterexample :
    "azuki" ∈ (clearAllCommand connectedOneSubState "u1").2.activeCollections
    ∧ (clearAllCommand connectedOneSubState "u1").1 = [joinFrame "azuki" 2] := by
  decide

/-- Claim C4 (amended): clearAll removes the subscriber's subscription
entry and filter entry and persists the result, but never recomputes
active-collection membership downward and never issues a leave frame:
every collection previously active stays active, and every frame emitted
by the operation is a join. -/
theorem C4_clear_behaviour (s : BotState) (u : String) :
    mapGet (clearAllCommand s u).2.userSubscriptions u = none
    ∧ mapGet (clearAllCommand s u).2.eventFilters u = none
    ∧ (clearAllCommand s u).2.persisted =
        some (saveData
          { s with userSubscriptions := mapDel s.userSubscriptions u,
                   eventFilters := mapDel s.eventFilters u })
    ∧ (∀ c ∈ s.activeCollections, c ∈ (clearAllCommand s u).2.activeCollections)
    ∧ (∀ f ∈ (clearAllCommand s u).1, f.event = "phx_join") := by
  have hC : clearAllCommand s u =
      saveSubscriptions
        { s with userSubscriptions := mapDel s.userSubscriptions u,
                 eventFilters := mapDel s.eventFilters u } := rfl
  refine ⟨?_, ?_, ?_, ?_, ?_⟩
  · rw [hC, save_userSubscriptions]
    exact mapGet_mapDel_self _ _
  · rw [hC, save_eventFilters]
    exact mapGet_mapDel_self _ _
  · rw [hC, save_persisted]
  · intro c hc
    rw [hC]
    exact mem_save_active hc
  · intro f hf
    rw [hC] at hf
    exact save_events _ f hf

theorem C4_clear_behaviour_witness :
    mapGet (clearAllCommand connectedOneSubState "u1").2.userSubscriptions "u1" = none
    ∧ mapGet (clearAllCommand connectedOneSubState "u1").2.eventFilters "u1" = none
    ∧ (clearAllCommand connectedOneSubState "u1").2.persisted =
        some (saveData
          { connectedOneSubState with
            userSubscriptions := mapDel connectedOneSubState.userSubscriptions "u1",
            eventFilters := mapDel connectedOneSubState.eventFilters "u1" })
    ∧ (∀ c ∈ connectedOneSubState.activeCollections,
        c ∈ (clearAllCommand connectedOneSubState "u1").2.activeCollections)
    ∧ (∀ f ∈ (clearAllCommand connectedOneSubState "u1").1, f.event = "phx_join") :=
  C4_clear_behaviour connectedOneSubState "u1"

/-- Claim C5: a subscriber already holding 3 subscriptions receives
CapacityExceeded from either subscribe path — the chat command (when the
slug and event arguments pass their earlier checks) and the modal — and
the entire state, persisted file included, is returned unchanged. -/
theorem C5_capacity (s : BotState) (u slug : String) (args : List String)
    (ack : AckOutcome)
    (hvalid : isValidCollectionSlug slug = true)
    (hargs : (parseUserEvents args).isSome = true)
    (hcap : 3 ≤ ((mapGet s.userSubscriptions u).getD []).length) :
    subscribeCommand s u slug args ack = (.capacityExceeded, [], s)
    ∧ addCollectionModal s u slug = (.capacityExceeded, [], s) := by
  obtain ⟨es, hes⟩ := Option.isSome_iff_exists.mp hargs
  constructor
  · simp [subscribeCommand, hvalid, hes, hcap]
  · simp [addCollectionModal, hvalid, hcap]

theorem C5_capacity_witness :
    subscribeCommand cappedState "u1" "moonbirds" [] AckOutcome.reply =
      (SubscribeResult.capacityExceeded, [], cappedState)
    ∧ addCollectionModal cappedState "u1" "moonbirds" =
      (SubscribeResult.capacityExceeded, [], cappedState) :=
  C5_capacity cappedState "u1" "moonbirds" [] AckOutcome.reply
    (by decide) (by decide) (by decide)

/-- Claim C6: the nth consecutive reconnection delay is
min(5000·2^(n−1), 30000) milliseconds for n = 1..5; the delay formula is
non-decreasing in n and every scheduled delay is at most 30000ms; every
`reconnect()` call increments the attempt counter (never resets it) and
once the counter has reached 5 a further failure schedules nothing; among
all modelled operations only the connected transition resets the counter,
and it resets it to zero. -/
theorem C6_backoff :
    (∀ n, 1 ≤ n → n ≤ 5 →
      (reconnectStep (n - 1)).1 = some (min (5000 * 2 ^ (n - 1)) 30000))
    ∧ (∀ m n, m ≤ n → backoffDelay m ≤ backoffDelay n)
    ∧ (∀ n d, (reconnectStep n).1 = some d → d ≤ 30000)
    ∧ (∀ n, 5 ≤ n → (reconnectStep n).1 = none)
    ∧ (∀ n, (reconnectStep n).2 = n + 1)
    ∧ (∀ (s : BotState) (op : Op), op ≠ Op.openEvt →
        (runOp s op).2.connectionAttempts = s.connectionAttempts)
    ∧ (∀ s : BotState, (runOp s Op.openEvt).2.connectionAttempts = 0) := by
  refine ⟨?_, ?_, ?_, ?_, ?_, ?_, ?_⟩
  · intro n h1 h5
    interval_cases n <;> decide
  · intro m n h
    unfold backoffDelay
    have h2 : RECONNECT_DELAY * 2 ^ (m - 1) ≤ RECONNECT_DELAY * 2 ^ (n - 1) :=
      Nat.mul_le_mul_left _
        (Nat.pow_le_pow_right (by norm_num) (Nat.sub_le_sub_right h 1))
    exact min_le_min h2 le_rfl
  · intro n d h
    unfold reconnectStep at h
    split at h
    · simp only [Option.some_inj] at h
      rw [← h]
      exact min_le_right _ _
    · exact absurd h (by simp)
  · intro n h
    unfold reconnectStep
    split
    · rename_i hle
      exfalso
      unfold MAX_RECONNECT_ATTEMPTS at hle
      omega
    · rfl
  · intro n
    unfold reconnectStep
    split <;> rfl
  · exact fun s op h => runOp_connectionAttempts s op h
  · exact fun s => open_connectionAttempts s

theorem C6_backoff_witness :
    (reconnectStep (4 - 1)).1 = some (min (5000 * 2 ^ (4 - 1)) 30000)
    ∧ (reconnectStep 5).1 = none :=
  ⟨C6_backoff.1 4 (by decide) (by decide), C6_backoff.2.2.2.1 5 (by decide)⟩

/-- Claim C7 (counterexample): subscriber u1 has a present-but-empty
filter set, is subscribed to azuki, and item_sold is a recognized kind,
yet an item_sold event for azuki routes to nobody: the code's
`eventFilters.get(u) || new Set(VALID_EVENTS)` fallback does not apply to
an empty (truthy) Set, so an empty filter set matches nothing. -/
theorem C7_counterexample :
    mapGet emptyFilterState.eventFilters "u1" = some []
    ∧ "azuki" ∈ (mapGet emptyFilterState.userSubscriptions "u1").getD []
    ∧ "item_sold" ∈ VALID_EVENTS
    ∧ handleOpenSeaEvent emptyFilterState
        { event := "item_sold", collectionSlug := some "azuki" } = [] := by
  decide

/-- Claim C7 (amended): a subscriber with NO stored EventFilter entry is
routed every recognized event kind on their subscribed collections (the
all-kinds default applies only to an absent entry; a present empty entry
matches nothing). -/
theorem C7_absent_filter_matches_all (s : BotState) (u : String) (l : List String)
    (slug kind : String)
    (hf : mapGet s.eventFilters u = none)
    (hmem : (u, l) ∈ s.userSubscriptions)
    (hslug : slug ∈ l)
    (hkind : kind ∈ VALID_EVENTS) :
    u ∈ handleOpenSeaEvent s { event := kind, collectionSlug := some slug } := by
  unfold handleOpenSeaEvent
  refine List.mem_map.mpr ⟨(u, l), List.mem_filter.mpr ⟨hmem, ?_⟩, rfl⟩
  have h2 : kind ∈ effectiveFilters s.eventFilters u := by
    unfold effectiveFilters
    rw [hf]
    exact hkind
  simp [hslug, h2]

theorem C7_absent_filter_matches_all_witness :
    "u1" ∈ handleOpenSeaEvent connectedOneSubState
      { event := "item_metadata_updated", collectionSlug := some "azuki" } :=
  C7_absent_filter_matches_all connectedOneSubState "u1" ["azuki"]
    "azuki" "item_metadata_updated" (by decide) (by decide) (by decide) (by decide)

/-- Claim C8 (counterexample): unsubscribing the sole subscriber of azuki
while disconnected removes azuki from the active set but leaves its
stored ref in `subscriptionRefs` — the TopicHandle is not discarded, so
the claim's "always ends with ... its TopicHandle discarded" fails. -/
theorem C8_counterexample :
    (unsubscribeCommand disconnectedOneSubState "u1" "azuki").1 =
      UnsubscribeResult.success
    ∧ "azuki" ∉ (unsubscribeCommand disconnectedOneSubState "u1" "azuki").2.2.activeCollections
    ∧ mapGet (unsubscribeCommand disconnectedOneSubState "u1" "azuki").2.2.subscriptionRefs
        "azuki" = some 1 := by
  decide

/-- Claim C8 (amended): unsubscribing a pair whose collection no other
subscriber retains removes the collection from the active set; while
connected with a stored nonzero ref, a leave frame carrying that ref is
sent and the ref is discarded (the reconciliation triggered by the save
rebuilds the ref map without it); while disconnected the stale stored ref
survives the operation.  An absent pair fails with NotSubscribed and
changes nothing. -/
theorem C8_unsubscribe_behaviour :
    (∀ (s : BotState) (u slug : String) (r : Nat),
      isValidCollectionSlug slug = true →
      slug ∈ (mapGet s.userSubscriptions u).getD [] →
      s.isWsConnected = true →
      mapGet s.subscriptionRefs slug = some r →
      r ≠ 0 →
      (unsubRemoveState s u slug).userSubscriptions.any
        (fun p => p.2.contains slug) = false →
      (unsubscribeCommand s u slug).1 = .success
      ∧ leaveFrame slug r ∈ (unsubscribeCommand s u slug).2.1
      ∧ slug ∉ (unsubscribeCommand s u slug).2.2.activeCollections
      ∧ mapGet (unsubscribeCommand s u slug).2.2.subscriptionRefs slug = none)
    ∧ (∀ (s : BotState) (u slug : String),
        isValidCollectionSlug slug = true →
        slug ∉ (mapGet s.userSubscriptions u).getD [] →
        unsubscribeCommand s u slug = (.notSubscribed, [], s)) := by
  constructor
  · intro s u slug r hvalid hmem hconn href hr hstill
    have hAA : (deactivateState (unsubRemoveState s u slug) slug).isWsConnected = true :=
      hconn
    have hBB : mapGet (deactivateState (unsubRemoveState s u slug)
        slug).subscriptionRefs slug = some r := href
    have hLeave : unsubLeavePhase (deactivateState (unsubRemoveState s u slug) slug)
        slug =
        ([leaveFrame slug r],
         dropRefState (deactivateState (unsubRemoveState s u slug) slug) slug) := by
      unfold unsubLeavePhase
      simp only [hAA, hBB]
      simp [hr]
    have hDrop : unsubDropPhase (unsubRemoveState s u slug) slug =
        ([leaveFrame slug r],
         dropRefState (deactivateState (unsubRemoveState s u slug) slug) slug) := by
      unfold unsubDropPhase
      rw [hstill]
      simpa using hLeave
    have hU : unsubscribeCommand s u slug =
        (.success,
         [leaveFrame slug r] ++
           (saveSubscriptions
             (dropRefState (deactivateState (unsubRemoveState s u slug) slug) slug)).1,
         (saveSubscriptions
           (dropRefState (deactivateState (unsubRemoveState s u slug) slug) slug)).2) := by
      unfold unsubscribeCommand
      rw [if_pos hvalid, if_pos hmem, hDrop]
    have hNotActive : slug ∉ addAllSubsToActive
        (dropRefState (deactivateState (unsubRemoveState s u slug) slug) slug) := by
      unfold addAllSubsToActive
      dsimp only [dropRefState, deactivateState]
      refine not_mem_entriesFold (not_mem_setDel _ _) ?_
      intro p hp hmemp
      exact List.any_eq_false.mp hstill p hp (List.elem_eq_true_of_mem hmemp)
    have hconnFin : (dropRefState (deactivateState (unsubRemoveState s u slug) slug)
        slug).isWsConnected = true := hconn
    refine ⟨?_, ?_, ?_, ?_⟩
    · rw [hU]
    · rw [hU]
      exact List.mem_append.mpr (Or.inl (List.mem_singleton.mpr rfl))
    · rw [hU]
      show slug ∉ (saveSubscriptions
        (dropRefState (deactivateState (unsubRemoveState s u slug) slug)
          slug)).2.activeCollections
      rw [save_activeCollections]
      exact hNotActive
    · rw [hU]
      show mapGet (saveSubscriptions
        (dropRefState (deactivateState (unsubRemoveState s u slug) slug)
          slug)).2.subscriptionRefs slug = none
      exact save_refs_none hconnFin hNotActive
  · intro s u slug hvalid hmem
    simp [unsubscribeCommand, hvalid, hmem]

theorem C8_unsubscribe_behaviour_witness :
    (unsubscribeCommand connectedOneSubState "u1" "azuki").1 = UnsubscribeResult.success
    ∧ leaveFrame "azuki" 1 ∈ (unsubscribeCommand connectedOneSubState "u1" "azuki").2.1
    ∧ "azuki" ∉ (unsubscribeCommand connectedOneSubState "u1" "azuki").2.2.activeCollections
    ∧ mapGet (unsubscribeCommand connectedOneSubState "u1" "azuki").2.2.subscriptionRefs
        "azuki" = none :=
  C8_unsubscribe_behaviour.1 connectedOneSubState "u1" "azuki" 1
    (by decide) (by decide) (by decide) (by decide) (by decide) (by decide)

/-- Claim C9 (counterexample): a send failure of the initial heartbeat —
the one scheduled 1000ms after open — does not invoke `reconnect()`; its
catch block only logs, refuting "every heartbeat send failure is treated
as a connection failure that triggers reconnection". -/
theorem C9_counterexample :
    (initialHeartbeatSend false).2 = false := by
  decide

/-- Claim C9 (amended): while connected the supervisor sends one
heartbeat after a 1000ms initial delay and further heartbeats on a fixed
30000ms interval; a send failure of a periodic heartbeat invokes
`reconnect()`, but a send failure of the initial heartbeat is only
logged. -/
theorem C9_heartbeat_policy :
    heartbeatPolicy.initialDelayMs = 1000
    ∧ heartbeatPolicy.intervalMs = 30000
    ∧ (periodicHeartbeatTick true true).1 = [heartbeatFrame]
    ∧ (periodicHeartbeatTick true false).2 = true
    ∧ (initialHeartbeatSend true).1 = [heartbeatFrame]
    ∧ (initialHeartbeatSend false).2 = false
    ∧ heartbeatPolicy.periodicFailureAction = FailureAction.reconnect
    ∧ heartbeatPolicy.initialFailureAction = FailureAction.logOnly := by
  decide

/-- Claim C10: over any sequence of operations of the process lifetime —
disconnects and reconnects included — the refs assigned to join frames
are strictly increasing in emission order (hence pairwise distinct, also
between joins of different connections), and the global ref counter never
decreases. -/
theorem C10_join_refs_monotone (s : BotState) (ops : List Op) :
    List.Pairwise (· < ·) (joinRefs (runOps s ops).1)
    ∧ s.currentRef ≤ (runOps s ops).2.currentRef :=
  ⟨(refSpan_runOps s ops).2.1, (refSpan_runOps s ops).1⟩

theorem C10_join_refs_monotone_witness :
    List.Pairwise (· < ·)
      (joinRefs (runOps savedOneSubState [Op.openEvt, Op.closeEvt, Op.openEvt]).1) :=
  (C10_join_refs_monotone savedOneSubState [Op.openEvt, Op.closeEvt, Op.openEvt]).1

end TbdNotify

